import Mathlib

/-!
Verification development for the portfolio-chatbot answer-resolution
pipeline (`src/api/index.py`).

The Python module is shallow-embedded below:

* Python strings are Lean `String`s; the `str.strip` / `str.lower` methods
  and the `re.sub(r"\s+", " ", ·)` normalisation are implemented on
  `List Char`.
* The regular expressions used by `INTENT_RULES` are embedded as a small
  AST (`RE`) together with an executable matcher implementing Python's
  `re.search` for exactly the constructs those patterns use
  (literals, alternation, `^`, `$`, `\b`, `\s*`, `?`, character classes).
* The module-level mutable `_sheet_cache` dict becomes the `SheetCache`
  structure; `load_sheet_if_needed` becomes a pure state transition that
  receives the outcome of the (external) HTTP GET as a `FetchOutcome`
  argument.  The CSV wire format is received already split into header
  row and record rows (`CsvTable`), mirroring what `csv.DictReader`
  hands back; `httpx` and `csv` are external collaborators.
* `rapidfuzz.process.extractOne` is embedded generically over an abstract
  scorer `String → String → ℚ` (the `fuzz.WRatio` metric itself is an
  external library); `extractOne` keeps the highest score, first index on
  ties, exactly as the library does.
* The `root` POST handler becomes a pure function from the request body,
  the dataset, the cache state and the environment (clock, fetch outcome,
  scorer) to a response, the new cache state, and the list of emitted
  fire-and-forget log events (`send_log` calls).
-/

/-! ## Python string helpers -/

/-- Python `\s` (ASCII subset): space, tab, newline, carriage return,
vertical tab, form feed. -/
def isPySpace (c : Char) : Bool :=
  c == ' ' || c == '\t' || c == '\n' || c == '\r' || c.toNat == 11 || c.toNat == 12

/-- `str.strip()` on a character list. -/
def stripChars (l : List Char) : List Char :=
  ((l.dropWhile isPySpace).reverse.dropWhile isPySpace).reverse

/-- Python `str.strip()`. -/
def pyStrip (s : String) : String := String.mk (stripChars s.data)

/-- Python `str.lower()` (ASCII). -/
def pyLower (s : String) : String := String.mk (s.data.map Char.toLower)

/-- Auxiliary for `re.sub(r"\s+", " ", t)`: the flag records whether the
previous character was part of a whitespace run already replaced. -/
def collapseWsAux : Bool → List Char → List Char
  | _, [] => []
  | prevSp, c :: rest =>
      if isPySpace c then
        if prevSp then collapseWsAux true rest
        else ' ' :: collapseWsAux true rest
      else c :: collapseWsAux false rest

/-- Python `re.sub(r"\s+", " ", ·)`: collapse each whitespace run to a
single space. -/
def collapseWs (l : List Char) : List Char := collapseWsAux false l

/-- `norm` (`src/api/index.py` lines 116-119):
`t.lower().strip()` followed by whitespace-run collapsing. -/
def norm (t : String) : String :=
  String.mk (collapseWs (stripChars (t.data.map Char.toLower)))

/-- Whether `needle` starts `hay`. -/
def listStartsWith : List Char → List Char → Bool
  | [], _ => true
  | _ :: _, [] => false
  | a :: r, b :: t => a == b && listStartsWith r t

/-- Python `needle in hay` substring test on character lists. -/
def containsSeq (needle hay : List Char) : Bool :=
  match hay with
  | [] => listStartsWith needle []
  | _ :: t => listStartsWith needle hay || containsSeq needle t

/-! ## Mini regular-expression engine

Only the constructs appearing in `INTENT_RULES` are supported:
literal characters, concatenation, alternation, `x?`, `[sz]`-style
character classes, `\s*`, the anchors `^` and `$`, and the word
boundary `\b`. -/

inductive RE where
  | eps
  | bos
  | eos
  | wordB
  | ch (c : Char)
  | cls (cs : List Char)
  | clsStar (cs : List Char)
  | seq (a b : RE)
  | alt (a b : RE)
  | opt (a : RE)
deriving DecidableEq

/-- Python `\w`: letters, digits, underscore (ASCII). -/
def isWordChar (c : Char) : Bool := c.isAlphanum || c == '_'

/-- A `\b` word boundary between the previous character (if any) and the
next character (if any). -/
def atBoundary (prev : Option Char) (next : Option Char) : Bool :=
  (match prev with | some c => isWordChar c | none => false)
    != (match next with | some c => isWordChar c | none => false)

/-- Match zero or more characters of class `cs`, trying every stop point
(`prev` tracks the character left of the current position for `\b`). -/
def starRun (cs : List Char) (prev : Option Char) (s : List Char)
    (k : Option Char → List Char → Bool) : Bool :=
  k prev s ||
    match s with
    | [] => false
    | x :: rest => cs.contains x && starRun cs (some x) rest k

/-- Fueled CPS matcher: does `r` match a prefix of `s` such that the
continuation `k` accepts the remainder?  `prev` is the character just
before the current position (`none` at the start of the text).  The fuel
only bounds nesting depth through the pattern AST; `200` far exceeds the
size of every pattern in the intent table. -/
def reMatch : Nat → RE → Option Char → List Char →
    (Option Char → List Char → Bool) → Bool
  | 0, _, _, _, _ => false
  | Nat.succ fuel, r, prev, s, k =>
    match r with
    | .eps => k prev s
    | .bos => prev.isNone && k prev s
    | .eos => s.isEmpty && k prev s
    | .wordB => atBoundary prev s.head? && k prev s
    | .ch c =>
        match s with
        | [] => false
        | x :: rest => x == c && k (some x) rest
    | .cls cs =>
        match s with
        | [] => false
        | x :: rest => cs.contains x && k (some x) rest
    | .clsStar cs => starRun cs prev s k
    | .seq a b => reMatch fuel a prev s (fun p' s' => reMatch fuel b p' s' k)
    | .alt a b => reMatch fuel a prev s k || reMatch fuel b prev s k
    | .opt a => reMatch fuel a prev s k || k prev s

/-- Try to match `r` at each start position of `s`. -/
def searchFrom (r : RE) (prev : Option Char) (s : List Char) : Bool :=
  reMatch 200 r prev s (fun _ _ => true) ||
    match s with
    | [] => false
    | x :: rest => searchFrom r (some x) rest

/-- Python `re.search(r, s) is not None`. -/
def reSearch (r : RE) (s : String) : Bool := searchFrom r none s.data

/-- Concatenation of a pattern list. -/
def cat : List RE → RE
  | [] => .eps
  | [r] => r
  | r :: rest => .seq r (cat rest)

/-- A string literal pattern. -/
def lit (s : String) : RE := cat (s.data.map RE.ch)

/-- `\b<s>\b`. -/
def bword (s : String) : RE := .seq .wordB (.seq (lit s) .wordB)

/-- The characters matched by `\s`. -/
def wsChars : List Char := [' ', '\t', '\n', '\r', Char.ofNat 11, Char.ofNat 12]

/-- `^\s*(hi|hello|hey)\s*$`. -/
def patGreet : RE :=
  .seq .bos (.seq (.clsStar wsChars)
    (.seq (.alt (lit "hi") (.alt (lit "hello") (lit "hey")))
      (.seq (.clsStar wsChars) .eos)))

/-- `\b<stem>\.?js\b`. -/
def bOptDotJs (stem : String) : RE :=
  .seq .wordB (.seq (lit stem) (.seq (.opt (.ch '.')) (.seq (lit "js") .wordB)))

/-- `\boptimi[sz]e\b`. -/
def patOptimize : RE :=
  .seq .wordB (.seq (lit "optimi") (.seq (.cls ['s', 'z']) (.seq (lit "e") .wordB)))

/-- `\blanguages?\b`. -/
def patLanguages : RE :=
  .seq .wordB (.seq (lit "language") (.seq (.opt (.ch 's')) .wordB))

/-! ## Canned answers (`LANGUAGE_ANSWERS`, `SKILL_ANSWERS`) -/

/-- `LANGUAGE_ANSWERS` (lines 44-65), as an ordered association list. -/
def LANGUAGE_ANSWERS : List (String × String) :=
  [("english",
    "Yes. He communicates professionally in English and uses it daily in his work for client meetings, documentation, and technical discussions."),
   ("tamil",
    "Yes. Tamil is his native language, and he communicates fluently in both personal and professional contexts."),
   ("hindi",
    "He has basic conversational knowledge of Hindi and is continuously improving his speaking skills."),
   ("arabic",
    "He is actively learning Arabic and continuously improving his proficiency for professional and daily communication."),
   ("languages_overall",
    "He is fluent in Tamil, professional in English, conversational in Hindi, and currently learning Arabic.")]

/-- `SKILL_ANSWERS` (lines 70-85). -/
def SKILL_ANSWERS : List (String × String) :=
  [("react",
    "Yes. He has strong React/Next.js experience (5+ years), building scalable web apps including banking and enterprise systems."),
   ("next",
    "Yes. He has experience with Next.js for production apps, focusing on performance, routing, SSR/SSG, and scalable UI architecture."),
   ("react_native",
    "Yes. He has React Native experience and has worked on cross-platform mobile apps for Android & iOS."),
   ("node",
    "Yes. He has Node.js experience for APIs, integrations, authentication flows, and backend services."),
   ("typescript",
    "Yes. He uses TypeScript extensively for scalable codebases, better maintainability, and safer refactoring."),
   ("aws",
    "Yes. He has hands-on experience with AWS for deployment, CI/CD, hosting, and scalable infrastructure."),
   ("devops",
    "He has experience with Docker and CI/CD pipelines and follows best practices to ship reliable builds."),
   ("security",
    "He follows OWASP practices, sanitizes inputs, uses secure headers/CSP, and ensures sensitive data is handled safely."),
   ("performance",
    "He optimizes performance via code splitting, lazy loading, caching, list virtualization, and profiling tools."),
   ("banking",
    "Yes. He has strong banking domain experience in Dubai, including work on large-scale digital banking platforms with focus on secure UI, API integrations, performance, and enterprise-grade standards.")]

/-- Python `dict.get(k)`: first entry whose key equals `k`. -/
def dictFind (m : List (String × String)) (k : String) : Option String :=
  (m.find? (fun p => p.1 == k)).map (fun p => p.2)

/-- Python `dict.get(k, dflt)`. -/
def dictGet (m : List (String × String)) (k : String) (dflt : String) : String :=
  (dictFind m k).getD dflt

/-! ## Intent rules (`INTENT_RULES`, lines 90-113)

Each Python rule dict carries a `patterns` list and exactly one of
`answer_index`, `skill_key`, `language_key`; all three are modelled as
`Option` fields. -/

structure IntentRule where
  patterns : List RE
  answer_index : Option Nat
  skill_key : Option String
  language_key : Option String
deriving DecidableEq

def intentRule0 : IntentRule :=
  ⟨[patGreet, bword "hi", bword "hello", bword "hey"], some 0, none, none⟩

def intentRule1 : IntentRule :=
  ⟨[bword "tell about him", bword "what about him", bword "who is sathick",
    bword "who are you", bword "introduce"], some 3, none, none⟩

def intentRule2 : IntentRule :=
  ⟨[bword "contact", bword "email", bword "phone", bword "reach",
    bword "get in touch", bword "how can i contact"], some 9, none, none⟩

def intentRule3 : IntentRule :=
  ⟨[bword "salary", bword "package", bword "ctc", bword "expected salary"],
    some 25, none, none⟩

def intentRule4 : IntentRule :=
  ⟨[bword "bank", bword "banking", bword "mashreq", bword "digital banking"],
    none, some "banking", none⟩

def intentRule5 : IntentRule :=
  ⟨[bword "react native", bword "rn"], none, some "react_native", none⟩

def intentRule6 : IntentRule :=
  ⟨[bOptDotJs "next", bword "nextjs", bword "next"], none, some "next", none⟩

def intentRule7 : IntentRule :=
  ⟨[bOptDotJs "react", bword "reactjs", bword "react"], none, some "react", none⟩

def intentRule8 : IntentRule :=
  ⟨[bOptDotJs "node", bword "nodejs", bword "node", bword "backend", bword "api"],
    none, some "node", none⟩

def intentRule9 : IntentRule :=
  ⟨[bword "typescript", bword "ts"], none, some "typescript", none⟩

def intentRule10 : IntentRule :=
  ⟨[bword "aws", bword "ec2", bword "s3", bword "lambda", bword "cloud"],
    none, some "aws", none⟩

def intentRule11 : IntentRule :=
  ⟨[bword "docker", bword "ci/cd", bword "pipeline", bword "devops"],
    none, some "devops", none⟩

def intentRule12 : IntentRule :=
  ⟨[bword "xss", bword "sql injection", bword "owasp", bword "csp", bword "security"],
    none, some "security", none⟩

def intentRule13 : IntentRule :=
  ⟨[bword "performance", patOptimize, bword "lazy", bword "caching", bword "profiling"],
    none, some "performance", none⟩

def intentRule14 : IntentRule :=
  ⟨[patLanguages, bword "what languages", bword "spoken languages", bword "which language"],
    none, none, some "languages_overall"⟩

def intentRule15 : IntentRule :=
  ⟨[bword "english", bword "can he speak english", bword "english fluency"],
    none, none, some "english"⟩

def intentRule16 : IntentRule :=
  ⟨[bword "tamil", bword "native language", bword "mother tongue"],
    none, none, some "tamil"⟩

def intentRule17 : IntentRule :=
  ⟨[bword "hindi", bword "can he speak hindi"], none, none, some "hindi"⟩

def intentRule18 : IntentRule :=
  ⟨[bword "arabic", bword "can he speak arabic", bword "learning arabic"],
    none, none, some "arabic"⟩

/-- The ordered rule table. -/
def INTENT_RULES : List IntentRule :=
  [intentRule0, intentRule1, intentRule2, intentRule3, intentRule4,
   intentRule5, intentRule6, intentRule7, intentRule8, intentRule9,
   intentRule10, intentRule11, intentRule12, intentRule13, intentRule14,
   intentRule15, intentRule16, intentRule17, intentRule18]

/-- Whether any pattern of `rule` matches anywhere in the (already
normalised) text `nq`. -/
def ruleMatches (nq : String) (rule : IntentRule) : Bool :=
  rule.patterns.any (fun p => reSearch p nq)

/-- `detect_intent` (lines 122-127): normalise, then return the first rule
one of whose patterns matches. -/
def detect_intent (q : String) : Option IntentRule :=
  INTENT_RULES.find? (ruleMatches (norm q))

example : detect_intent "hello" = some intentRule0 := by decide
example : detect_intent "  What LANGUAGES does he speak? " = some intentRule14 := by decide
example : detect_intent "salary expectation?" = some intentRule3 := by decide
example : detect_intent "what is the weather today" = none := by decide
example : detect_intent "hello react" = some intentRule0 := by decide
example : detect_intent "react" = some intentRule7 := by decide
example : detect_intent "nextjs and react" = some intentRule6 := by decide
example : detect_intent "tamil" = some intentRule16 := by decide
example : norm "  Hi   THERE " = "hi there" := by decide

/-! ## Bundled dataset (lines 32-39)

`data.json` itself ships outside `src/api`; only the loading code is in
scope.  `json.load` hands back a parsed document from which the module
reads `data.get("questions", [])` and `data.get("answers", [])` — with no
validation whatsoever. -/

structure Dataset where
  questions : List String
  answers : List String
deriving DecidableEq

/-- Module-level dataset load (lines 38-39): `data.get(key, [])` for the
two keys of the parsed JSON document. -/
def loadDataset (qv av : Option (List String)) : Dataset :=
  ⟨qv.getD [], av.getD []⟩

/-! ## Remote FAQ cache (`_sheet_cache`, `load_sheet_if_needed`) -/

/-- The `_sheet_cache["meta"]` diagnostics dict. -/
structure SheetMeta where
  sheet_url_set : Bool
  last_error : String
  content_type : String
  status_code : Option Nat
  row_count : Nat
  headers : List String
  loaded_at : Int
deriving DecidableEq

/-- The module-level `_sheet_cache` dict (line 140). -/
structure SheetCache where
  ts : Int
  questions : List String
  answers : List String
  meta : SheetMeta
deriving DecidableEq

/-- `_sheet_cache = {"ts": 0, "questions": [], "answers": [], "meta": {}}`
(the empty initial meta dict is modelled with default field values). -/
def initialSheetCache : SheetCache :=
  ⟨0, [], [], ⟨false, "", "", none, 0, [], 0⟩⟩

/-- The environment configuration read at import time:
`SHEET_CSV_URL` (already `.strip()`ed) and `CACHE_TTL`. -/
structure SheetConfig where
  url : String
  ttl : Int
deriving DecidableEq

/-- What `csv.DictReader` yields for the response body: the header row
(`fieldnames`, `none` for an empty body) and each record as an
association list from original header name to cell text. -/
structure CsvTable where
  fieldnames : Option (List String)
  rows : List (List (String × String))
deriving DecidableEq

/-- Outcome of the `httpx` GET against `SHEET_CSV_URL`:
either the client raised (connection error / timeout / …) before a
response was obtained, or a response arrived with a status code, a
`content-type` header and a body. -/
inductive FetchOutcome where
  | fail (msg : String)
  | resp (status : Nat) (contentType : String) (table : CsvTable)
deriving DecidableEq

/-- `_normalize_headers` / the `norm_map` values (lines 143-146, 203):
`re.sub(r"\s+", " ", h.strip().lower())`. -/
def normHeader (h : String) : String :=
  String.mk (collapseWs ((stripChars h.data).map Char.toLower))

/-- Recognised question-column headers (line 207). -/
def qHeaderNames : List String := ["question", "questions", "q"]

/-- Recognised answer-column headers (line 213). -/
def aHeaderNames : List String := ["answer", "answers", "a"]

/-- `row.get(key) or ""`. -/
def rowGet (row : List (String × String)) (key : String) : String :=
  ((row.find? (fun p => p.1 == key)).map (fun p => p.2)).getD ""

/-- The row-filtering loop (lines 223-229): keep a `(question, answer)`
pair exactly when both cells are non-empty after stripping. -/
def parseRows (qk ak : String) (rows : List (List (String × String))) :
    List (String × String) :=
  rows.filterMap (fun row =>
    let q := pyStrip (rowGet row qk)
    let a := pyStrip (rowGet row ak)
    if q ≠ "" && a ≠ "" then some (q, a) else none)

/-- The freshness gate (line 160):
`not force and (now - _sheet_cache["ts"] < CACHE_TTL) and _sheet_cache["questions"]`. -/
def freshGate (cfg : SheetConfig) (c : SheetCache) (now : Int) (force : Bool) : Bool :=
  !force && decide (now - c.ts < cfg.ttl) && !c.questions.isEmpty

/-- Derived control-flow fact: the HTTP GET at line 179 executes iff
neither the freshness gate (line 160) nor the empty-URL early return
(line 173) is taken. -/
def attemptsFetch (cfg : SheetConfig) (c : SheetCache) (now : Int) (force : Bool) : Bool :=
  !(freshGate cfg c now force) && !(cfg.url == "")

def emptyUrlMsg : String := "SHEET_CSV_URL is empty. Set env var on server."

def htmlErrorMsg : String :=
  "Got HTML instead of CSV. Make the sheet public (Anyone with link: Viewer) and ensure the URL is a CSV export link."

/-- `str(e)` for the `httpx.HTTPStatusError` raised by
`r.raise_for_status()` on a 4xx/5xx status. -/
def statusErrorMsg (status : Nat) : String :=
  "HTTP status error: response code " ++ toString status

/-- The missing-column message (lines 218-220). -/
def headersErrorMsg (fields : List String) : String :=
  "CSV headers must include question/answer columns. Found: " ++ toString fields

/-- `load_sheet_if_needed` (lines 149-239) as a state transition on the
cache.  `outcome` is what the external HTTP GET would deliver if it is
reached; `now = int(time.time())`.  All exceptions inside the `try` are
caught by the handler at line 236, which records `str(e)` and returns,
so the embedding is a total function. -/
def load_sheet_if_needed (cfg : SheetConfig) (outcome : FetchOutcome)
    (c : SheetCache) (now : Int) (force : Bool) : SheetCache :=
  if freshGate cfg c now force then c
  else
    let meta0 : SheetMeta :=
      { sheet_url_set := !(cfg.url == ""), last_error := "", content_type := "",
        status_code := none, row_count := 0, headers := [], loaded_at := now }
    if cfg.url == "" then
      { c with meta := { meta0 with last_error := emptyUrlMsg } }
    else
      match outcome with
      | .fail msg => { c with meta := { meta0 with last_error := msg } }
      | .resp status contentType table =>
        let meta1 :=
          { meta0 with status_code := some status, content_type := pyLower contentType }
        if 400 ≤ status then
          { c with meta := { meta1 with last_error := statusErrorMsg status } }
        else if containsSeq "text/html".data meta1.content_type.data then
          { c with meta := { meta1 with last_error := htmlErrorMsg } }
        else
          let fields := table.fieldnames.getD []
          let meta2 := { meta1 with headers := fields.map normHeader }
          match fields.find? (fun o => qHeaderNames.contains (normHeader o)),
                fields.find? (fun o => aHeaderNames.contains (normHeader o)) with
          | some qk, some ak =>
            let pairs := parseRows qk ak table.rows
            { ts := now, questions := pairs.map Prod.fst,
              answers := pairs.map Prod.snd,
              meta := { meta2 with row_count := pairs.length } }
          | _, _ =>
            { c with meta := { meta2 with last_error := headersErrorMsg fields } }

/-! ## Fuzzy matching (`rapidfuzz.process.extractOne`) -/

/-- Fold step of `process.extractOne`: scan candidates keeping the
strictly-best score (so the first occurrence wins ties).  `i0` is the
index of the head of `l` in the original candidate list. -/
def extractOneGo (scorer : String → String → ℚ) (q : String) :
    List String → Nat → Option (String × ℚ × Nat) → Option (String × ℚ × Nat)
  | [], _, best => best
  | cand :: rest, i0, none =>
    extractOneGo scorer q rest (i0 + 1) (some (cand, scorer q cand, i0))
  | cand :: rest, i0, some b =>
    if b.2.1 < scorer q cand then
      extractOneGo scorer q rest (i0 + 1) (some (cand, scorer q cand, i0))
    else extractOneGo scorer q rest (i0 + 1) (some b)

/-- `process.extractOne(q, choices, scorer=...)`: `none` on an empty
candidate list, otherwise `(choice, score, index)` of the best-scoring
candidate (first index on ties). -/
def extractOne (scorer : String → String → ℚ) (q : String)
    (choices : List String) : Option (String × ℚ × Nat) :=
  extractOneGo scorer q choices 0 none

/-- `answer_from_sheet` (lines 242-251).  The Python `ans[best[2]]`
indexing is modelled with `List.get?`; the cache invariant (claim C9)
shows the index is always in bounds for cache states the program builds. -/
def answer_from_sheet (scorer : String → String → ℚ) (c : SheetCache)
    (user_q : String) : Option String :=
  let qs := c.questions
  let ans := c.answers
  if qs.isEmpty then none
  else
    match extractOne scorer user_q qs with
    | some best => if 78 ≤ best.2.1 then ans.get? best.2.2 else none
    | none => none

/-! ## The `root` POST handler (lines 296-343) -/

/-- One fire-and-forget `send_log` call: the question text and the
`type` field (`"log"` or `"missed"`). -/
structure LogEvent where
  question : String
  etype : String
deriving DecidableEq

inductive ApiResponse where
  | error (msg : String)
  | answer (text : String)
deriving DecidableEq

/-- Result of one request: either a JSON response, or an unhandled
exception propagating out of the handler (possible only at line 339,
where `answers[best[2]]` is not bounds-checked and not inside a `try`). -/
inductive RootResult where
  | ok (resp : ApiResponse)
  | crash (msg : String)
deriving DecidableEq

def noAnswerText : String := "I don\x27t have an answer for that yet."

def languageFallback : String := "He can communicate in multiple languages."

def skillFallback : String := "Yes, he has experience in that area."

/-- Resolution of a matched rule (lines 316-324): `language_key` first,
then `skill_key`, then the bounds-checked `answer_index`; `none` means
the handler falls through to the sheet stage. -/
def ruleResponse (answersList : List String) (rule : IntentRule) :
    Option ApiResponse :=
  match rule.language_key with
  | some k => some (.answer (dictGet LANGUAGE_ANSWERS k languageFallback))
  | none =>
    match rule.skill_key with
    | some k => some (.answer (dictGet SKILL_ANSWERS k skillFallback))
    | none =>
      match rule.answer_index with
      | some idx =>
        if idx < answersList.length then
          some (.answer (answersList.getD idx ""))
        else none
      | none => none

/-- Per-request environment: sheet configuration, the outcome the
external HTTP GET would deliver, the current clock reading, and the
`fuzz.WRatio` scorer. -/
structure Env where
  cfg : SheetConfig
  fetch : FetchOutcome
  now : Int
  scorer : String → String → ℚ

/-- Stage 3 and stage 4 (lines 336-343): local fuzzy fallback over the
bundled dataset, else the "missed" log event and the default answer.
Note `answers[best[2]]` at line 339 raises `IndexError` when the bundled
`questions` list is longer than `answers`. -/
def localStage (scorer : String → String → ℚ) (ds : Dataset) (q : String)
    (cache' : SheetCache) (evs : List LogEvent) :
    RootResult × SheetCache × List LogEvent :=
  match extractOne scorer q ds.questions with
  | some best =>
    if 78 ≤ best.2.1 then
      if best.2.2 < ds.answers.length then
        (.ok (.answer (ds.answers.getD best.2.2 "")), cache', evs)
      else (.crash "IndexError: list index out of range", cache', evs)
    else (.ok (.answer noAnswerText), cache', evs ++ [⟨q, "missed"⟩])
  | none => (.ok (.answer noAnswerText), cache', evs ++ [⟨q, "missed"⟩])

/-- Stage 2 followed by stages 3-4 (lines 326-343): refresh the sheet
cache, try the sheet answer (note the *truthiness* test `if sheet_ans:`
— an empty-string answer falls through), else the local stages. -/
def fallbackStages (env : Env) (ds : Dataset) (cache : SheetCache)
    (q : String) (evs : List LogEvent) :
    RootResult × SheetCache × List LogEvent :=
  let cache' := load_sheet_if_needed env.cfg env.fetch cache env.now false
  match answer_from_sheet env.scorer cache' q with
  | some sa =>
    if sa == "" then localStage env.scorer ds q cache' evs
    else (.ok (.answer sa), cache', evs)
  | none => localStage env.scorer ds q cache' evs

/-- The POST branch of `root` (lines 305-343).  `bq` is
`body.get("question")`; GET / OPTIONS requests never reach the pipeline
and are out of scope. -/
def root (env : Env) (ds : Dataset) (cache : SheetCache)
    (bq : Option String) : RootResult × SheetCache × List LogEvent :=
  let q := pyStrip (bq.getD "")
  if q == "" then (.ok (.error "Missing question"), cache, [])
  else
    let evs : List LogEvent := [⟨q, "log"⟩]
    match detect_intent q with
    | some rule =>
      match ruleResponse ds.answers rule with
      | some resp => (.ok resp, cache, evs)
      | none => fallbackStages env ds cache q evs
    | none => fallbackStages env ds cache q evs

/-! ## Helper lemmas -/

/-- If position `i` of `l` satisfies `p`, then `find?` succeeds and
returns the element at some position `k ≤ i`. -/
theorem find?_earliest {α : Type} (p : α → Bool) :
    ∀ (l : List α) (i : Nat) (x : α), l.get? i = some x → p x = true →
      ∃ k y, k ≤ i ∧ l.get? k = some y ∧ p y = true ∧ l.find? p = some y := by
  intro l
  induction l with
  | nil => intro i x hget; simp at hget
  | cons a t ih =>
    intro i x hget hp
    cases hpa : p a with
    | true =>
      exact ⟨0, a, Nat.zero_le i, rfl, hpa, by simp [List.find?, hpa]⟩
    | false =>
      cases i with
      | zero =>
        simp at hget
        subst hget
        rw [hpa] at hp
        exact absurd hp (by simp)
      | succ n =>
        simp only [List.get?] at hget
        obtain ⟨k, y, hk, hgk, hpy, hfind⟩ := ih n x hget hp
        exact ⟨k + 1, y, Nat.succ_le_succ hk, by simpa using hgk, hpy,
          by simp [List.find?, hpa, hfind]⟩

/-- Distinct positions of a `Nodup` list hold distinct elements. -/
theorem nodup_get?_ne {α : Type} :
    ∀ (l : List α), l.Nodup → ∀ (k j : Nat) (y z : α), k < j →
      l.get? k = some y → l.get? j = some z → y ≠ z := by
  intro l
  induction l with
  | nil => intro _ k j y z _ hk; simp at hk
  | cons a t ih =>
    intro hnd k j y z hkj hk hj
    have hmem : a ∉ t := (List.nodup_cons.mp hnd).1
    have hndt : t.Nodup := (List.nodup_cons.mp hnd).2
    cases k with
    | zero =>
      simp at hk
      subst hk
      cases j with
      | zero => exact absurd hkj (by simp)
      | succ m =>
        simp only [List.get?] at hj
        intro hyz
        subst hyz
        exact hmem (List.get?_mem hj)
    | succ n =>
      cases j with
      | zero => exact absurd hkj (by omega)
      | succ m =>
        simp only [List.get?] at hk hj
        exact ih hndt n m y z (by omega) hk hj

/-- The intent table has pairwise-distinct rules. -/
theorem intentRules_nodup : INTENT_RULES.Nodup := by decide

/-- The result of the `extractOne` scan is either the accumulator or a
candidate of `l`, with its index counted from `i0`. -/
theorem extractOneGo_index (scorer : String → String → ℚ) (q : String) :
    ∀ (l : List String) (i0 : Nat) (acc : Option (String × ℚ × Nat))
      (res : String × ℚ × Nat),
      extractOneGo scorer q l i0 acc = some res →
      acc = some res ∨
        ∃ k, k < l.length ∧ l.get? k = some res.1 ∧ res.2.2 = i0 + k := by
  intro l
  induction l with
  | nil => intro i0 acc res h; exact Or.inl h
  | cons cand rest ih =>
    intro i0 acc res h
    have step : ∀ acc' : String × ℚ × Nat,
        (acc' = (cand, scorer q cand, i0) ∨ acc = some acc') →
        extractOneGo scorer q rest (i0 + 1) (some acc') = some res →
        acc = some res ∨
          ∃ k, k < (cand :: rest).length ∧ (cand :: rest).get? k = some res.1 ∧
            res.2.2 = i0 + k := by
      intro acc' hacc' hrec
      rcases ih (i0 + 1) (some acc') res hrec with heq | ⟨k, hk, hgk, hik⟩
      · rcases hacc' with h1 | h2
        · have hres : (cand, scorer q cand, i0) = res := by
            rw [← h1]; exact Option.some.inj heq
          subst hres
          exact Or.inr ⟨0, by simp, by simp, by simp⟩
        · rw [h2, heq]
          exact Or.inl rfl
      · exact Or.inr ⟨k + 1, by simpa using hk, by simpa using hgk, by omega⟩
    cases acc with
    | none =>
      simp only [extractOneGo] at h
      exact step _ (Or.inl rfl) h
    | some b =>
      simp only [extractOneGo] at h
      by_cases hlt : b.2.1 < scorer q cand
      · rw [if_pos hlt] at h
        exact step _ (Or.inl rfl) h
      · rw [if_neg hlt] at h
        exact step b (Or.inr rfl) h

/-- `extractOne` returns an in-range index paired with its candidate. -/
theorem extractOne_index (scorer : String → String → ℚ) (q : String)
    (choices : List String) (res : String × ℚ × Nat)
    (h : extractOne scorer q choices = some res) :
    res.2.2 < choices.length ∧ choices.get? res.2.2 = some res.1 := by
  rcases extractOneGo_index scorer q choices 0 none res h with hc | ⟨k, hk, hgk, hik⟩
  · exact absurd hc (by simp)
  · rw [hik, Nat.zero_add]
    exact ⟨hk, hgk⟩

/-- A string starting with a non-empty prefix is non-empty. -/
theorem append_ne_empty_left (a b : String) (h : a.data ≠ []) : a ++ b ≠ "" := by
  intro hab
  have hdata : (a ++ b).data = a.data ++ b.data := rfl
  rw [hab] at hdata
  cases hd : a.data with
  | nil => exact h hd
  | cons c t =>
    rw [hd] at hdata
    simp at hdata

theorem statusErrorMsg_ne (status : Nat) : statusErrorMsg status ≠ "" :=
  append_ne_empty_left _ _ (by decide)

theorem headersErrorMsg_ne (fields : List String) : headersErrorMsg fields ≠ "" :=
  append_ne_empty_left _ _ (by decide)

/-! ## Claim C3: first matching rule wins -/

/-- Claim C3: if the normalised input matches a pattern of the rule at
position `i` and `i < j`, then `detect_intent` never returns the rule at
position `j`; it returns the rule at the earliest matching position,
which is at most `i`.  Rules are evaluated strictly in table order and
the first rule any of whose patterns matches wins. -/
theorem claim_C3 (q : String) (i j : Nat) (ri rj : IntentRule)
    (hij : i < j)
    (hi : INTENT_RULES.get? i = some ri) (hj : INTENT_RULES.get? j = some rj)
    (hmatch : ruleMatches (norm q) ri = true) :
    detect_intent q ≠ some rj ∧
      ∃ k rk, k ≤ i ∧ INTENT_RULES.get? k = some rk ∧
        ruleMatches (norm q) rk = true ∧ detect_intent q = some rk := by
  obtain ⟨k, y, hk, hgk, hpy, hfind⟩ :=
    find?_earliest (ruleMatches (norm q)) INTENT_RULES i ri hi hmatch
  have hne : y ≠ rj :=
    nodup_get?_ne INTENT_RULES intentRules_nodup k j y rj (by omega) hgk hj
  have hdet : detect_intent q = some y := hfind
  refine ⟨?_, k, y, hk, hgk, hpy, hdet⟩
  intro hcontra
  rw [hdet] at hcontra
  exact hne (Option.some.inj hcontra)

/-- Witness for C3: `"hello react"` matches rule 0 (greeting) and rule 7
(react); detection returns the earlier rule and never the react rule. -/
theorem claim_C3_witness :
    detect_intent "hello react" ≠ some intentRule7 ∧
      ∃ k rk, k ≤ 0 ∧ INTENT_RULES.get? k = some rk ∧
        ruleMatches (norm "hello react") rk = true ∧
        detect_intent "hello react" = some rk :=
  claim_C3 "hello react" 0 7 intentRule0 intentRule7 (by decide) rfl rfl (by decide)

/-! ## Claim C6: empty question is rejected immediately -/

/-- Claim C6: a request whose question is empty or whitespace-only (its
`strip()` is empty) yields exactly the `Missing question` error response,
with the cache untouched and no log events (no resolution stage runs);
this error response is distinct from every answer response, in
particular from the no-answer default text. -/
theorem claim_C6 (env : Env) (ds : Dataset) (cache : SheetCache) (bq : Option String)
    (h : pyStrip (bq.getD "") = "") :
    root env ds cache bq = (.ok (.error "Missing question"), cache, []) ∧
      ∀ s, RootResult.ok (.error "Missing question") ≠ RootResult.ok (.answer s) := by
  constructor
  · simp [root, h]
  · intro s hcontra
    simp at hcontra

/-- Witness for C6 at the whitespace-only question `"   "`. -/
theorem claim_C6_witness :
    root ⟨⟨"", 300⟩, .fail "x", 0, fun _ _ => 0⟩ ⟨[], []⟩ initialSheetCache (some "   ") =
        (.ok (.error "Missing question"), initialSheetCache, []) ∧
      ∀ s, RootResult.ok (.error "Missing question") ≠ RootResult.ok (.answer s) :=
  claim_C6 _ _ _ _ (by decide)

/-! ## Claim C8: out-of-range direct answer index falls through -/

/-- Claim C8: when the first matching rule carries a direct answer index
that is out of range for the dataset answer list (and no skill or
language key), rule resolution yields no response and the handler
continues exactly with the remote-sheet and local-dataset fallback
stages — no error is raised. -/
theorem claim_C8 (env : Env) (ds : Dataset) (cache : SheetCache) (bq : Option String)
    (rule : IntentRule) (idx : Nat)
    (hq : pyStrip (bq.getD "") ≠ "")
    (hrule : detect_intent (pyStrip (bq.getD "")) = some rule)
    (hlang : rule.language_key = none) (hskill : rule.skill_key = none)
    (hidx : rule.answer_index = some idx)
    (hoob : ¬ idx < ds.answers.length) :
    ruleResponse ds.answers rule = none ∧
      root env ds cache bq =
        fallbackStages env ds cache (pyStrip (bq.getD ""))
          [⟨pyStrip (bq.getD ""), "log"⟩] := by
  have hrr : ruleResponse ds.answers rule = none := by
    simp [ruleResponse, hlang, hskill, hidx, hoob]
  refine ⟨hrr, ?_⟩
  simp only [root]
  rw [if_neg (by simpa using hq)]
  rw [hrule]
  simp only [hrr]

/-- Witness for C8: `"salary"` selects rule 3 with direct index 25, out
of range for an empty answers list, so resolution falls through. -/
theorem claim_C8_witness :
    ruleResponse ([] : List String) intentRule3 = none ∧
      root ⟨⟨"", 300⟩, .fail "x", 0, fun _ _ => 0⟩ ⟨[], []⟩ initialSheetCache (some "salary") =
        fallbackStages ⟨⟨"", 300⟩, .fail "x", 0, fun _ _ => 0⟩ ⟨[], []⟩ initialSheetCache
          "salary" [⟨"salary", "log"⟩] := by
  have h := claim_C8 ⟨⟨"", 300⟩, .fail "x", 0, fun _ _ => 0⟩ ⟨[], []⟩ initialSheetCache
    (some "salary") intentRule3 25 (by decide) (by decide) rfl rfl rfl (by decide)
  simpa using h

/-! ## Claim C10: every referenced skill/language key is mapped -/

/-- Per-rule key well-formedness: a referenced language or skill key
resolves in its answer map to a value distinct from the generic fallback
sentence, and skill rules carry no language key. -/
def ruleWF (r : IntentRule) : Bool :=
  (match r.language_key with
   | some k => (dictFind LANGUAGE_ANSWERS k).isSome &&
       ((dictFind LANGUAGE_ANSWERS k).getD languageFallback != languageFallback)
   | none => true) &&
  (match r.skill_key with
   | some k => (dictFind SKILL_ANSWERS k).isSome &&
       ((dictFind SKILL_ANSWERS k).getD skillFallback != skillFallback) &&
       r.language_key.isNone
   | none => true)

/-- Every rule of the intent table is key-well-formed. -/
theorem intentRules_wf : INTENT_RULES.all ruleWF = true := by decide

/-- Claim C10: any rule returned by intent detection that carries a
language or skill key resolves it in `LANGUAGE_ANSWERS` /
`SKILL_ANSWERS`, so rule resolution returns that configured canned
answer and the generic fallback sentences are unreachable (for every
input and every dataset answer list). -/
theorem claim_C10 (q : String) (r : IntentRule) (answersList : List String)
    (h : detect_intent q = some r) :
    (∀ k, r.language_key = some k →
       ∃ v, dictFind LANGUAGE_ANSWERS k = some v ∧ v ≠ languageFallback ∧
         ruleResponse answersList r = some (.answer v)) ∧
    (∀ k, r.skill_key = some k →
       ∃ v, dictFind SKILL_ANSWERS k = some v ∧ v ≠ skillFallback ∧
         ruleResponse answersList r = some (.answer v)) := by
  have hmem : r ∈ INTENT_RULES := List.mem_of_find?_eq_some h
  have hwf : ruleWF r = true := by
    have hall := intentRules_wf
    rw [List.all_eq_true] at hall
    exact hall r hmem
  constructor
  · intro k hk
    rw [ruleWF, hk] at hwf
    simp only [Bool.and_eq_true] at hwf
    obtain ⟨⟨hsome, hne⟩, _⟩ := hwf
    obtain ⟨v, hv⟩ := Option.isSome_iff_exists.mp hsome
    refine ⟨v, hv, ?_, ?_⟩
    · rw [hv] at hne
      simpa using hne
    · simp [ruleResponse, hk, dictGet, hv]
  · intro k hk
    rw [ruleWF, hk] at hwf
    simp only [Bool.and_eq_true] at hwf
    obtain ⟨_, ⟨hsome, hne⟩, hlangnone⟩ := hwf
    have hlang : r.language_key = none := Option.isNone_iff_eq_none.mp hlangnone
    obtain ⟨v, hv⟩ := Option.isSome_iff_exists.mp hsome
    refine ⟨v, hv, ?_, ?_⟩
    · rw [hv] at hne
      simpa using hne
    · simp [ruleResponse, hlang, hk, dictGet, hv]

/-- Witness for C10: the input `"react"` selects the react skill rule,
whose key resolves to its configured canned answer. -/
theorem claim_C10_witness :
    ∃ v, dictFind SKILL_ANSWERS "react" = some v ∧ v ≠ skillFallback ∧
      ruleResponse ([] : List String) intentRule7 = some (.answer v) :=
  (claim_C10 "react" intentRule7 [] (by decide)).2 "react" rfl

/-! ## Claim C9: sheet-cache pairing invariant -/

/-- The sheet-cache pairing invariant: cached question and answer lists
have equal length. -/
def SheetInv (c : SheetCache) : Prop :=
  c.questions.length = c.answers.length

/-- Claim C9: the initial cache satisfies the pairing invariant, every
`load_sheet_if_needed` transition preserves it (successful refreshes
build both lists from the same filtered row pairs; failed ones leave the
lists untouched), and under it every above-threshold sheet lookup reads
the answer stored at the best match's own index, in bounds. -/
theorem claim_C9 (c : SheetCache) (h : SheetInv c) :
    SheetInv initialSheetCache ∧
      (∀ (cfg : SheetConfig) (outcome : FetchOutcome) (now : Int) (force : Bool),
        SheetInv (load_sheet_if_needed cfg outcome c now force)) ∧
      (∀ (scorer : String → String → ℚ) (q a : String),
        answer_from_sheet scorer c q = some a →
          ∃ best, extractOne scorer q c.questions = some best ∧
            best.2.2 < c.answers.length ∧ c.answers.get? best.2.2 = some a ∧
            78 ≤ best.2.1) := by
  refine ⟨rfl, ?_, ?_⟩
  · intro cfg outcome now force
    rw [load_sheet_if_needed]
    split
    · exact h
    · split
      · exact h
      · cases outcome with
        | fail msg => exact h
        | resp status contentType table =>
          simp only
          split
          · exact h
          · split
            · exact h
            · split
              · simp [SheetInv]
              · exact h
  · intro scorer q a ha
    rw [answer_from_sheet] at ha
    by_cases hemp : c.questions.isEmpty
    · rw [if_pos hemp] at ha
      exact absurd ha (by simp)
    · rw [if_neg hemp] at ha
      cases hbest : extractOne scorer q c.questions with
      | none =>
        rw [hbest] at ha
        exact absurd (ha : (none : Option String) = some a) (by simp)
      | some best =>
        rw [hbest] at ha
        have ha' : (if (78 : ℚ) ≤ best.2.1 then c.answers.get? best.2.2 else none) =
            some a := ha
        by_cases hthr : (78 : ℚ) ≤ best.2.1
        · rw [if_pos hthr] at ha'
          have hidx := extractOne_index scorer q c.questions best hbest
          exact ⟨best, rfl, by rw [← h]; exact hidx.1, ha', hthr⟩
        · rw [if_neg hthr] at ha'
          exact absurd ha' (by simp)

/-- Witness for C9: a one-entry cache; the lookup returns the answer at
the matched index. -/
theorem claim_C9_witness :
    ∃ best, extractOne (fun _ _ => (80 : ℚ)) "hello" ["greeting q"] = some best ∧
      best.2.2 < (SheetCache.mk 3 ["greeting q"] ["greeting a"]
        ⟨true, "", "", some 200, 1, [], 3⟩).answers.length ∧
      (SheetCache.mk 3 ["greeting q"] ["greeting a"]
        ⟨true, "", "", some 200, 1, [], 3⟩).answers.get? best.2.2 = some "greeting a" ∧
      (78 : ℚ) ≤ best.2.1 :=
  (claim_C9 (SheetCache.mk 3 ["greeting q"] ["greeting a"] ⟨true, "", "", some 200, 1, [], 3⟩)
    rfl).2.2 (fun _ _ => (80 : ℚ)) "hello" "greeting a" (by decide)

/-! ## Claim C4: the acceptance threshold is exactly 78 -/

/-- Claim C4: in both fuzzy stages — the remote-sheet lookup
(`answer_from_sheet`) and the local dataset fallback (stage 3 of the
handler) — the best-scoring candidate is accepted exactly when its score
is at least 78: at or above the threshold the answer paired with the
best match's index is returned, below it the stage yields no
match and resolution falls through (to the local stage, respectively to
the missed/default stage). -/
theorem claim_C4 (scorer : String → String → ℚ) (q : String)
    (cache : SheetCache) (ds : Dataset) (cache' : SheetCache) (evs : List LogEvent)
    (bs bl : String × ℚ × Nat)
    (hs : extractOne scorer q cache.questions = some bs)
    (hl : extractOne scorer q ds.questions = some bl) :
    ((78 ≤ bs.2.1 → answer_from_sheet scorer cache q = cache.answers.get? bs.2.2) ∧
     (bs.2.1 < 78 → answer_from_sheet scorer cache q = none)) ∧
    ((78 ≤ bl.2.1 → bl.2.2 < ds.answers.length →
        localStage scorer ds q cache' evs =
          (.ok (.answer (ds.answers.getD bl.2.2 "")), cache', evs)) ∧
     (bl.2.1 < 78 →
        localStage scorer ds q cache' evs =
          (.ok (.answer noAnswerText), cache', evs ++ [⟨q, "missed"⟩]))) := by
  constructor
  · have hne : cache.questions.isEmpty = false := by
      cases hcq : cache.questions with
      | nil => rw [hcq] at hs; exact absurd hs (by simp [extractOne, extractOneGo])
      | cons a t => rfl
    constructor
    · intro hthr
      rw [answer_from_sheet]
      rw [if_neg (by simp [hne])]
      rw [hs]
      have : (match (some bs : Option (String × ℚ × Nat)) with
          | some best => if (78 : ℚ) ≤ best.2.1 then cache.answers.get? best.2.2 else none
          | none => none) =
          (if (78 : ℚ) ≤ bs.2.1 then cache.answers.get? bs.2.2 else none) := rfl
      rw [this, if_pos hthr]
    · intro hthr
      rw [answer_from_sheet]
      rw [if_neg (by simp [hne])]
      rw [hs]
      have : (match (some bs : Option (String × ℚ × Nat)) with
          | some best => if (78 : ℚ) ≤ best.2.1 then cache.answers.get? best.2.2 else none
          | none => none) =
          (if (78 : ℚ) ≤ bs.2.1 then cache.answers.get? bs.2.2 else none) := rfl
      rw [this, if_neg (by exact not_le.mpr hthr)]
  · constructor
    · intro hthr hbound
      rw [localStage, hl]
      have : (match (some bl : Option (String × ℚ × Nat)) with
          | some best =>
            if (78 : ℚ) ≤ best.2.1 then
              if best.2.2 < ds.answers.length then
                (RootResult.ok (.answer (ds.answers.getD best.2.2 "")), cache', evs)
              else (RootResult.crash "IndexError: list index out of range", cache', evs)
            else (RootResult.ok (.answer noAnswerText), cache', evs ++ [⟨q, "missed"⟩])
          | none => (RootResult.ok (.answer noAnswerText), cache', evs ++ [⟨q, "missed"⟩])) =
          (if (78 : ℚ) ≤ bl.2.1 then
              if bl.2.2 < ds.answers.length then
                (RootResult.ok (.answer (ds.answers.getD bl.2.2 "")), cache', evs)
              else (RootResult.crash "IndexError: list index out of range", cache', evs)
            else (RootResult.ok (.answer noAnswerText), cache', evs ++ [⟨q, "missed"⟩])) := rfl
      rw [this, if_pos hthr, if_pos hbound]
    · intro hthr
      rw [localStage, hl]
      have : (match (some bl : Option (String × ℚ × Nat)) with
          | some best =>
            if (78 : ℚ) ≤ best.2.1 then
              if best.2.2 < ds.answers.length then
                (RootResult.ok (.answer (ds.answers.getD best.2.2 "")), cache', evs)
              else (RootResult.crash "IndexError: list index out of range", cache', evs)
            else (RootResult.ok (.answer noAnswerText), cache', evs ++ [⟨q, "missed"⟩])
          | none => (RootResult.ok (.answer noAnswerText), cache', evs ++ [⟨q, "missed"⟩])) =
          (if (78 : ℚ) ≤ bl.2.1 then
              if bl.2.2 < ds.answers.length then
                (RootResult.ok (.answer (ds.answers.getD bl.2.2 "")), cache', evs)
              else (RootResult.crash "IndexError: list index out of range", cache', evs)
            else (RootResult.ok (.answer noAnswerText), cache', evs ++ [⟨q, "missed"⟩])) := rfl
      rw [this, if_neg (not_le.mpr hthr)]

/-- Witness for C4, exercising both sides of the boundary: a sheet
candidate scoring exactly 78 is accepted, a local candidate scoring 77
is rejected and falls to the missed/default stage. -/
theorem claim_C4_witness :
    answer_from_sheet (fun _ cand => if cand == "sq" then (78 : ℚ) else 77)
        (SheetCache.mk 3 ["sq"] ["sa"] ⟨true, "", "", some 200, 1, [], 3⟩) "x" =
      some "sa" ∧
    localStage (fun _ cand => if cand == "sq" then (78 : ℚ) else 77)
        ⟨["lq"], ["la"]⟩ "x"
        (SheetCache.mk 3 ["sq"] ["sa"] ⟨true, "", "", some 200, 1, [], 3⟩) [] =
      (.ok (.answer noAnswerText),
        SheetCache.mk 3 ["sq"] ["sa"] ⟨true, "", "", some 200, 1, [], 3⟩,
        [⟨"x", "missed"⟩]) := by
  have h := claim_C4 (fun _ cand => if cand == "sq" then (78 : ℚ) else 77) "x"
    (SheetCache.mk 3 ["sq"] ["sa"] ⟨true, "", "", some 200, 1, [], 3⟩)
    ⟨["lq"], ["la"]⟩
    (SheetCache.mk 3 ["sq"] ["sa"] ⟨true, "", "", some 200, 1, [], 3⟩) []
    ("sq", 78, 0) ("lq", 77, 0) (by decide) (by decide)
  exact ⟨(h.1.1 (by decide)).trans rfl, (h.2.2 (by decide)).trans rfl⟩

/-! ## Claim C2: failed refreshes never disturb the cache -/

theorem htmlErrorMsg_ne : htmlErrorMsg ≠ "" := by decide

/-- The refresh outcomes that make `load_sheet_if_needed` record an error:
the client raised (transport error / timeout, with non-empty `str(e)`),
`raise_for_status` fired (4xx/5xx), the response declared an HTML content
type, or the question/answer columns cannot be recognised among the
headers. -/
def refreshFails : FetchOutcome → Bool
  | .fail msg => msg != ""
  | .resp status contentType table =>
      decide (400 ≤ status) ||
      containsSeq "text/html".data (pyLower contentType).data ||
      ((table.fieldnames.getD []).find?
        (fun o => qHeaderNames.contains (normHeader o))).isNone ||
      ((table.fieldnames.getD []).find?
        (fun o => aHeaderNames.contains (normHeader o))).isNone

/-- Claim C2: whenever a refresh that actually runs (the freshness gate
does not short-circuit, the URL is configured) fails — transport error or
timeout, HTTP error status, HTML content type, or unrecognisable
question/answer header columns — it returns instead of raising, records
the error in the diagnostics metadata, and leaves the previously cached
question list, answer list and timestamp unchanged (so the pipeline's
later fallback stages still run against the old cache). -/
theorem claim_C2 (cfg : SheetConfig) (outcome : FetchOutcome) (c : SheetCache)
    (now : Int) (force : Bool)
    (hurl : cfg.url ≠ "")
    (hgate : freshGate cfg c now force = false)
    (hfail : refreshFails outcome = true) :
    (load_sheet_if_needed cfg outcome c now force).questions = c.questions ∧
    (load_sheet_if_needed cfg outcome c now force).answers = c.answers ∧
    (load_sheet_if_needed cfg outcome c now force).ts = c.ts ∧
    (load_sheet_if_needed cfg outcome c now force).meta.last_error ≠ "" := by
  rw [load_sheet_if_needed]
  rw [if_neg (by simp [hgate])]
  rw [if_neg (by simpa using hurl)]
  cases outcome with
  | fail msg =>
    refine ⟨rfl, rfl, rfl, ?_⟩
    simpa [refreshFails] using hfail
  | resp status contentType table =>
    rw [refreshFails] at hfail
    dsimp only
    by_cases hst : 400 ≤ status
    · rw [if_pos hst]
      exact ⟨rfl, rfl, rfl, statusErrorMsg_ne status⟩
    · rw [if_neg hst]
      by_cases hhtml : containsSeq "text/html".data (pyLower contentType).data = true
      · rw [if_pos hhtml]
        exact ⟨rfl, rfl, rfl, htmlErrorMsg_ne⟩
      · rw [if_neg hhtml]
        have hcols : ((table.fieldnames.getD []).find?
              (fun o => qHeaderNames.contains (normHeader o))).isNone = true ∨
            ((table.fieldnames.getD []).find?
              (fun o => aHeaderNames.contains (normHeader o))).isNone = true := by
          simp only [Bool.or_eq_true] at hfail
          rcases hfail with ((h1 | h2) | h3) | h4
          · exact absurd (of_decide_eq_true h1) hst
          · exact absurd h2 hhtml
          · exact Or.inl h3
          · exact Or.inr h4
        rcases hqcol : (table.fieldnames.getD []).find?
            (fun o => qHeaderNames.contains (normHeader o)) with _ | qk
        · refine ⟨rfl, rfl, rfl, headersErrorMsg_ne _⟩
        · rcases hacol : (table.fieldnames.getD []).find?
              (fun o => aHeaderNames.contains (normHeader o)) with _ | ak
          · refine ⟨rfl, rfl, rfl, headersErrorMsg_ne _⟩
          · rw [hqcol, hacol] at hcols
            simp at hcols

/-- Witness for C2: a forced refresh hitting a transport timeout records
the error and leaves the (initial) cache contents untouched. -/
theorem claim_C2_witness :
    (load_sheet_if_needed ⟨"https://sheet.example/csv", 300⟩ (.fail "timeout")
        initialSheetCache 0 true).questions = initialSheetCache.questions ∧
    (load_sheet_if_needed ⟨"https://sheet.example/csv", 300⟩ (.fail "timeout")
        initialSheetCache 0 true).answers = initialSheetCache.answers ∧
    (load_sheet_if_needed ⟨"https://sheet.example/csv", 300⟩ (.fail "timeout")
        initialSheetCache 0 true).ts = initialSheetCache.ts ∧
    (load_sheet_if_needed ⟨"https://sheet.example/csv", 300⟩ (.fail "timeout")
        initialSheetCache 0 true).meta.last_error ≠ "" :=
  claim_C2 ⟨"https://sheet.example/csv", 300⟩ (.fail "timeout") initialSheetCache 0 true
    (by decide) (by decide) (by decide)

/-! ## Claim C5: cache freshness (corrected) -/

/-- Counterexample to C5 as stated: two non-forced refresh calls one
second apart (well within the 300-second TTL) both reach the network
fetch, because the first call's fetch fails and leaves the cached
question list empty — the gate requires a non-empty cache, not merely a
recent attempt.  So "two refresh calls within the TTL window perform at
most one network fetch" is false. -/
theorem claim_C5_counterexample :
    attemptsFetch ⟨"https://sheet.example/csv", 300⟩ initialSheetCache 5 false = true ∧
    attemptsFetch ⟨"https://sheet.example/csv", 300⟩
      (load_sheet_if_needed ⟨"https://sheet.example/csv", 300⟩ (.fail "timeout")
        initialSheetCache 5 false) 6 false = true ∧
    (6 : Int) - 5 < 300 := by decide

/-- Claim C5 (amended): a non-forced refresh within the TTL window since
the last successful load whose cached question list is non-empty is a
no-op and performs no fetch — hence two in-window calls perform at most
one fetch provided the first leaves a fresh, non-empty cache; any call on
which the gate fails (`force`, window elapsed, or empty cache) performs
the network fetch whenever the source URL is configured. -/
theorem claim_C5_amended (cfg : SheetConfig) (outcome : FetchOutcome) (c : SheetCache)
    (now now2 : Int) (force : Bool) :
    (freshGate cfg c now force = true →
        load_sheet_if_needed cfg outcome c now force = c ∧
        attemptsFetch cfg c now force = false) ∧
    (freshGate cfg c now force = false → cfg.url ≠ "" →
        attemptsFetch cfg c now force = true) ∧
    ((load_sheet_if_needed cfg outcome c now force).questions ≠ [] →
      now2 - (load_sheet_if_needed cfg outcome c now force).ts < cfg.ttl →
      attemptsFetch cfg (load_sheet_if_needed cfg outcome c now force) now2 false = false) := by
  refine ⟨?_, ?_, ?_⟩
  · intro hgate
    constructor
    · rw [load_sheet_if_needed, if_pos hgate]
    · simp [attemptsFetch, hgate]
  · intro hgate hurl
    simp [attemptsFetch, hgate, hurl]
  · intro h1 h2
    have hie : (load_sheet_if_needed cfg outcome c now force).questions.isEmpty = false := by
      cases hq : (load_sheet_if_needed cfg outcome c now force).questions with
      | nil => exact absurd hq h1
      | cons a t => rfl
    simp [attemptsFetch, freshGate, hie, h2]

/-- Witness for the amended C5: a fresh, non-empty cache makes a
non-forced in-window refresh a no-op with no fetch. -/
theorem claim_C5_witness :
    load_sheet_if_needed ⟨"u", 300⟩ (.fail "x")
        (SheetCache.mk 3 ["q"] ["a"] ⟨true, "", "", some 200, 1, [], 3⟩) 5 false =
      SheetCache.mk 3 ["q"] ["a"] ⟨true, "", "", some 200, 1, [], 3⟩ ∧
    attemptsFetch ⟨"u", 300⟩
      (SheetCache.mk 3 ["q"] ["a"] ⟨true, "", "", some 200, 1, [], 3⟩) 5 false = false :=
  (claim_C5_amended ⟨"u", 300⟩ (.fail "x")
    (SheetCache.mk 3 ["q"] ["a"] ⟨true, "", "", some 200, 1, [], 3⟩) 5 0 false).1 (by decide)

/-! ## Claim C1: dataset load performs no length validation (corrected) -/

/-- Counterexample to C1 as stated: loading a bundled dataset whose
question list has one entry and whose answer list is empty succeeds —
nothing fails fast — and the system then serves requests normally (here a
request answered by a language rule) with the mismatched store. -/
theorem claim_C1_counterexample :
    (loadDataset (some ["only question"]) (some [])).questions.length ≠
      (loadDataset (some ["only question"]) (some [])).answers.length ∧
    root ⟨⟨"", 300⟩, .fail "x", 0, fun _ _ => 0⟩
        (loadDataset (some ["only question"]) (some [])) initialSheetCache (some "tamil") =
      (.ok (.answer (dictGet LANGUAGE_ANSWERS "tamil" languageFallback)),
        initialSheetCache, [⟨"tamil", "log"⟩]) :=
  ⟨by decide, rfl⟩

/-- Claim C1 (amended): the module-level dataset load performs no
length validation — it accepts any question/answer lists, mismatched
lengths included, and the handler goes on serving requests against the
mismatched store (a rule-matched request is answered normally for every
dataset whatsoever). -/
theorem claim_C1_amended :
    (∀ (qv av : Option (List String)) (env : Env) (cache : SheetCache),
      root env (loadDataset qv av) cache (some "tamil") =
        (.ok (.answer (dictGet LANGUAGE_ANSWERS "tamil" languageFallback)),
          cache, [⟨"tamil", "log"⟩])) ∧
    loadDataset (some ["only question"]) (some []) = ⟨["only question"], []⟩ := by
  constructor
  · intro qv av env cache
    rfl
  · rfl

/-! ## Claim C7: log events (corrected) -/

/-- The local stage (stage 3) finds no acceptable dataset match: no
candidate, or the best score is below the threshold. -/
def localMiss (scorer : String → String → ℚ) (ds : Dataset) (q : String) : Bool :=
  match extractOne scorer q ds.questions with
  | some best => decide (best.2.1 < 78)
  | none => true

/-- The sheet stage finds no truthy answer against cache state `c'`. -/
def sheetMiss (scorer : String → String → ℚ) (c' : SheetCache) (q : String) : Bool :=
  match answer_from_sheet scorer c' q with
  | some a => a == ""
  | none => true

/-- Both fallback stages miss (after the refresh of stage 2). -/
def sheetLocalMiss (env : Env) (ds : Dataset) (cache : SheetCache) (q : String) : Bool :=
  sheetMiss env.scorer (load_sheet_if_needed env.cfg env.fetch cache env.now false) q &&
    localMiss env.scorer ds q

/-- The request falls through every resolution stage: the matched rule
(if any) resolves to nothing, and after the refresh both the sheet
lookup and the local fuzzy stage miss. -/
def unanswered (env : Env) (ds : Dataset) (cache : SheetCache) (q : String) : Bool :=
  (match detect_intent q with
   | some r => (ruleResponse ds.answers r).isNone
   | none => true) && sheetLocalMiss env ds cache q

/-- Events emitted by the local stage: exactly one `missed` event when it
misses, none otherwise. -/
theorem localStage_events (scorer : String → String → ℚ) (ds : Dataset)
    (q : String) (cache' : SheetCache) (evs : List LogEvent) :
    (localStage scorer ds q cache' evs).2.2 =
      if localMiss scorer ds q then evs ++ [⟨q, "missed"⟩] else evs := by
  rw [localStage, localMiss]
  cases hb : extractOne scorer q ds.questions with
  | none => rfl
  | some best =>
    dsimp only
    by_cases hthr : (78 : ℚ) ≤ best.2.1
    · have hd : (decide (best.2.1 < 78)) = false := decide_eq_false (not_lt.mpr hthr)
      rw [if_pos hthr, hd]
      by_cases hbound : best.2.2 < ds.answers.length
      · rw [if_pos hbound]; simp
      · rw [if_neg hbound]; simp
    · have hd : (decide (best.2.1 < 78)) = true := decide_eq_true (lt_of_not_le hthr)
      rw [if_neg hthr, hd]
      simp

/-- Events emitted by stages 2-4 together. -/
theorem fallbackStages_events (env : Env) (ds : Dataset) (cache : SheetCache)
    (q : String) (evs : List LogEvent) :
    (fallbackStages env ds cache q evs).2.2 =
      if sheetLocalMiss env ds cache q then evs ++ [⟨q, "missed"⟩] else evs := by
  rw [fallbackStages, sheetLocalMiss, sheetMiss]
  cases hsa : answer_from_sheet env.scorer
      (load_sheet_if_needed env.cfg env.fetch cache env.now false) q with
  | none =>
    dsimp only
    rw [localStage_events]
    simp
  | some sa =>
    dsimp only
    by_cases hse : (sa == "") = true
    · rw [if_pos hse, localStage_events, hse]
      simp
    · have h0 : (sa == "") = false := eq_false_of_ne_true hse
      rw [if_neg hse, h0]
      simp

/-- Full event characterisation of a request with a non-empty trimmed
question: one `log` event, plus one `missed` event exactly when the
request falls through every stage. -/
theorem root_events (env : Env) (ds : Dataset) (cache : SheetCache)
    (bq : Option String) (hq : pyStrip (bq.getD "") ≠ "") :
    (root env ds cache bq).2.2 =
      if unanswered env ds cache (pyStrip (bq.getD "")) then
        [⟨pyStrip (bq.getD ""), "log"⟩, ⟨pyStrip (bq.getD ""), "missed"⟩]
      else [⟨pyStrip (bq.getD ""), "log"⟩] := by
  rw [root, unanswered]
  rw [if_neg (by simpa using hq)]
  cases hdi : detect_intent (pyStrip (bq.getD "")) with
  | some rule =>
    dsimp only
    cases hrr : ruleResponse ds.answers rule with
    | some resp =>
      dsimp only
      simp
    | none =>
      dsimp only
      rw [fallbackStages_events]
      simp
  | none =>
    dsimp only
    rw [fallbackStages_events]
    simp

/-- Counterexample to C7 as stated: the empty-question request is
rejected *before* the `log` event fires — a request that produces no log
event at all, so not *every* request triggers one. -/
theorem claim_C7_counterexample :
    (root ⟨⟨"", 300⟩, .fail "x", 0, fun _ _ => 0⟩ ⟨[], []⟩ initialSheetCache (some "")).2.2 =
      [] ∧
    root ⟨⟨"", 300⟩, .fail "x", 0, fun _ _ => 0⟩ ⟨[], []⟩ initialSheetCache (some "") =
      (.ok (.error "Missing question"), initialSheetCache, []) :=
  ⟨rfl, rfl⟩

/-- Claim C7 (amended): every request whose trimmed question is
*non-empty* triggers a `log` event, and such a request additionally
triggers a distinct `missed` event exactly when it falls through every
resolution stage (the `UNANSWERED` terminal state); the empty-question
rejection path emits no events. -/
theorem claim_C7_amended (env : Env) (ds : Dataset) (cache : SheetCache)
    (bq : Option String) (hq : pyStrip (bq.getD "") ≠ "") :
    (⟨pyStrip (bq.getD ""), "log"⟩ : LogEvent) ∈ (root env ds cache bq).2.2 ∧
    ((⟨pyStrip (bq.getD ""), "missed"⟩ : LogEvent) ∈ (root env ds cache bq).2.2 ↔
      unanswered env ds cache (pyStrip (bq.getD "")) = true) := by
  rw [root_events env ds cache bq hq]
  by_cases hu : unanswered env ds cache (pyStrip (bq.getD "")) = true
  · rw [if_pos hu]
    exact ⟨by simp, by simp [hu]⟩
  · rw [if_neg hu]
    refine ⟨by simp, ?_⟩
    constructor
    · intro hmem
      rw [List.mem_singleton] at hmem
      have htype : ("missed" : String) = "log" := congrArg LogEvent.etype hmem
      exact absurd htype (by decide)
    · intro h
      exact absurd h hu

/-- Witness for the amended C7: an unmatched question logs and is
additionally reported as missed. -/
theorem claim_C7_witness :
    (⟨pyStrip ((some "zzqq").getD ""), "log"⟩ : LogEvent) ∈
      (root ⟨⟨"", 300⟩, .fail "x", 0, fun _ _ => 0⟩ ⟨[], []⟩ initialSheetCache
        (some "zzqq")).2.2 ∧
    ((⟨pyStrip ((some "zzqq").getD ""), "missed"⟩ : LogEvent) ∈
        (root ⟨⟨"", 300⟩, .fail "x", 0, fun _ _ => 0⟩ ⟨[], []⟩ initialSheetCache
          (some "zzqq")).2.2 ↔
      unanswered ⟨⟨"", 300⟩, .fail "x", 0, fun _ _ => 0⟩ ⟨[], []⟩ initialSheetCache
        (pyStrip ((some "zzqq").getD "")) = true) :=
  claim_C7_amended _ _ _ _ (by decide)
